import Mathlib

/-!
Verification development for the services_ML analysis service: a shallow
embedding of its TCP protocol layer (`app/core/tcp/protocol.py`,
`app/core/tcp/server.py`, `app/core/tcp/handlers.py`) and of its analysis
pipeline use cases and persistence adapter
(`app/features/clustering/...`, `app/features/recommendations/...`,
`app/features/visualization/...`).

Machine integers are modelled as `Nat`/`Int`, numeric payloads as `Rat`.
Calls into external libraries (pydantic / `json` serialization, UMAP,
HDBSCAN, the pgvector `<=>` distance operator) are modelled as explicit
function parameters; everything written by the repository itself is
translated definition by definition.
-/

set_option maxRecDepth 8192
set_option linter.unusedVariables false

namespace ServicesML

/-- JSON values, the model of Python objects that travel in `data`/`result`
dictionaries. Objects are association lists in insertion order. -/
inductive Json where
  | null : Json
  | bool : Bool → Json
  | num : ℚ → Json
  | str : String → Json
  | arr : List Json → Json
  | obj : List (String × Json) → Json

/-- First-match key lookup in a JSON object association list (Python `dict`
keys are unique, so first-match agrees with `dict` lookup). -/
def lookupKey (kvs : List (String × Json)) (k : String) : Option Json :=
  match kvs with
  | [] => none
  | (k', v) :: rest => if k' = k then some v else lookupKey rest k

/-- Model of `TCPAction` (`protocol.py`): the closed string enum of protocol
actions. -/
inductive TCPAction where
  | cluster_documents | update_clusters | get_clusters | get_cluster_details
  | extract_topics | update_topics | get_topics | get_topic_trends
  | recommend_similar | get_recommendations
  | update_visualization | get_visualization
  | analyze_trends | get_temporal_patterns
  | ping | status
deriving DecidableEq, Repr

/-- The string value of each `TCPAction` member. -/
def TCPAction.value : TCPAction → String
  | .cluster_documents => "cluster_documents"
  | .update_clusters => "update_clusters"
  | .get_clusters => "get_clusters"
  | .get_cluster_details => "get_cluster_details"
  | .extract_topics => "extract_topics"
  | .update_topics => "update_topics"
  | .get_topics => "get_topics"
  | .get_topic_trends => "get_topic_trends"
  | .recommend_similar => "recommend_similar"
  | .get_recommendations => "get_recommendations"
  | .update_visualization => "update_visualization"
  | .get_visualization => "get_visualization"
  | .analyze_trends => "analyze_trends"
  | .get_temporal_patterns => "get_temporal_patterns"
  | .ping => "ping"
  | .status => "status"

/-- Model of pydantic validation of the `action` field: a string is accepted
exactly when it is the value of some enum member. -/
def TCPAction.ofString? (s : String) : Option TCPAction :=
  if s = "cluster_documents" then some .cluster_documents
  else if s = "update_clusters" then some .update_clusters
  else if s = "get_clusters" then some .get_clusters
  else if s = "get_cluster_details" then some .get_cluster_details
  else if s = "extract_topics" then some .extract_topics
  else if s = "update_topics" then some .update_topics
  else if s = "get_topics" then some .get_topics
  else if s = "get_topic_trends" then some .get_topic_trends
  else if s = "recommend_similar" then some .recommend_similar
  else if s = "get_recommendations" then some .get_recommendations
  else if s = "update_visualization" then some .update_visualization
  else if s = "get_visualization" then some .get_visualization
  else if s = "analyze_trends" then some .analyze_trends
  else if s = "get_temporal_patterns" then some .get_temporal_patterns
  else if s = "ping" then some .ping
  else if s = "status" then some .status
  else none

/-- Model of `TCPRequest` (`protocol.py`): `action`, a `data` dictionary and
an optional `request_id`. -/
structure TCPRequest where
  action : TCPAction
  data : List (String × Json)
  request_id : Option String

/-- Model of `TCPResponse` (`protocol.py`). -/
structure TCPResponse where
  status : String
  result : Option (List (String × Json))
  error : Option String
  request_id : Option String

/-- Model of `TCPResponse.success`. -/
def TCPResponse.success (result : List (String × Json))
    (request_id : Option String) : TCPResponse :=
  { status := "success", result := some result, error := none,
    request_id := request_id }

/-- Model of `TCPResponse.create_error`. -/
def TCPResponse.create_error (error_message : String)
    (request_id : Option String) : TCPResponse :=
  { status := "error", result := none, error := some error_message,
    request_id := request_id }

/-- A wire message is either a request or a response. -/
inductive TCPMessage where
  | req : TCPRequest → TCPMessage
  | res : TCPResponse → TCPMessage

/-- Encoding of an optional string as JSON (`None` serializes to `null`). -/
def optStrJson : Option String → Json
  | none => Json.null
  | some s => Json.str s

/-- Encoding of an optional dictionary as JSON. -/
def optObjJson : Option (List (String × Json)) → Json
  | none => Json.null
  | some kvs => Json.obj kvs

/-- Model of pydantic `model_dump_json` for `TCPRequest`: all declared
fields, in declaration order, with the enum serialized by value. -/
def TCPRequest.toJsonValue (r : TCPRequest) : Json :=
  Json.obj [("action", Json.str r.action.value),
            ("data", Json.obj r.data),
            ("request_id", optStrJson r.request_id)]

/-- Model of pydantic `model_dump_json` for `TCPResponse`. -/
def TCPResponse.toJsonValue (r : TCPResponse) : Json :=
  Json.obj [("status", Json.str r.status),
            ("result", optObjJson r.result),
            ("error", optStrJson r.error),
            ("request_id", optStrJson r.request_id)]

/-- The JSON document serialized for a wire message. -/
def TCPMessage.toJsonValue : TCPMessage → Json
  | .req r => r.toJsonValue
  | .res r => r.toJsonValue

/-- Validation of an `Optional[str]` field: missing or `null` yields `None`,
a string is kept, anything else is a validation error. -/
def validateOptStr (kvs : List (String × Json)) (k : String) :
    Option (Option String) :=
  match lookupKey kvs k with
  | none => some none
  | some Json.null => some none
  | some (Json.str s) => some (some s)
  | some _ => none

/-- Validation of an `Optional[Dict]` field. -/
def validateOptObj (kvs : List (String × Json)) (k : String) :
    Option (Option (List (String × Json))) :=
  match lookupKey kvs k with
  | none => some none
  | some Json.null => some none
  | some (Json.obj o) => some (some o)
  | some _ => none

/-- Model of pydantic `TCPRequest.model_validate_json` applied to a parsed
JSON document: `action` must be a member of the enum, `data` defaults to the
empty dictionary, `request_id` defaults to `None`; extra keys are ignored. -/
def TCPRequest.fromJsonValue (j : Json) : Option TCPRequest :=
  match j with
  | Json.obj kvs =>
    match lookupKey kvs "action" with
    | some (Json.str s) =>
      match TCPAction.ofString? s with
      | some a =>
        match (match lookupKey kvs "data" with
               | none => some []
               | some (Json.obj o) => some o
               | some _ => none) with
        | some d =>
          match validateOptStr kvs "request_id" with
          | some rid => some { action := a, data := d, request_id := rid }
          | none => none
        | none => none
      | none => none
    | _ => none
  | _ => none

/-- Model of pydantic `TCPResponse.model_validate_json` applied to a parsed
JSON document: `status` is a required string, the other fields default to
`None`. -/
def TCPResponse.fromJsonValue (j : Json) : Option TCPResponse :=
  match j with
  | Json.obj kvs =>
    match lookupKey kvs "status" with
    | some (Json.str st) =>
      match validateOptObj kvs "result" with
      | some res =>
        match validateOptStr kvs "error" with
        | some err =>
          match validateOptStr kvs "request_id" with
          | some rid =>
            some { status := st, result := res, error := err,
                   request_id := rid }
          | none => none
        | none => none
      | none => none
    | _ => none
  | _ => none

/-- Model of the Python expression `"action" in json_data` used by
`decode_message` to tell requests from responses. For a non-object top-level
document both pydantic validations fail anyway, so only the object case is
significant. -/
def topLevelHasAction : Json → Bool
  | Json.obj kvs => (lookupKey kvs "action").isSome
  | _ => false

/-- Bytes of the 4-byte big-endian length prefix produced by
`length.to_bytes(4, byteorder="big")`. -/
def toBytes4 (n : ℕ) : List ℕ :=
  [n / 2 ^ 24 % 256, n / 2 ^ 16 % 256, n / 2 ^ 8 % 256, n % 256]

/-- Model of `int.from_bytes(data[:4], byteorder="big")`. -/
def fromBytes4 (bs : List ℕ) : ℕ :=
  match bs with
  | [a, b, c, d] => ((a * 256 + b) * 256 + c) * 256 + d
  | _ => 0

/-- The JSON-document/byte-sequence codec. It stands for the composition of
pydantic `model_dump_json` / `json.loads` with UTF-8 encoding, which are
external library code: `dump` turns a JSON document into payload bytes and
`load` parses payload bytes back. Theorems that need the external guarantee
that parsing inverts printing take it as an explicit hypothesis. -/
structure JsonCodec where
  dump : Json → List ℕ
  load : List ℕ → Option Json

/-- Model of `encode_message` (`protocol.py`): serialize, prefix with the
4-byte big-endian byte length. `int.to_bytes(4, ...)` raises `OverflowError`
for lengths of `2 ^ 32` or more, modelled as `none`. -/
def encode_message (C : JsonCodec) (m : TCPMessage) : Option (List ℕ) :=
  let json_bytes := C.dump m.toJsonValue
  let length := json_bytes.length
  if length < 2 ^ 32 then some (toBytes4 length ++ json_bytes) else none

/-- The failure modes of `decode_message`. The two incomplete constructors
carry the repository's own `ValueError` texts; `jsonFail` and `modelFail`
stand for exceptions raised inside the external `json` / pydantic layers. -/
inductive DecodeError where
  | incompleteHeader : DecodeError
  | incompleteBody (expected got : ℕ) : DecodeError
  | jsonFail : DecodeError
  | modelFail : DecodeError
deriving DecidableEq, Repr

/-- Whether the error is one of the repository's two explicit
`"Mensaje incompleto"` failures. -/
def DecodeError.isIncomplete : DecodeError → Bool
  | .incompleteHeader => true
  | .incompleteBody _ _ => true
  | _ => false

/-- The `str(e)` text of each decode failure; for the external failures an
unspecified stand-in text is used (no theorem depends on it). -/
def DecodeError.message : DecodeError → String
  | .incompleteHeader => "Mensaje incompleto: faltan bytes de longitud"
  | .incompleteBody expected got =>
      "Mensaje incompleto: esperaba " ++ toString expected ++
      " bytes, recibió " ++ toString got
  | .jsonFail => "json error"
  | .modelFail => "validation error"

/-- Model of `decode_message` (`protocol.py`): check the 4-byte prefix, slice
out the declared payload (a Python slice truncates), check completeness,
parse, and validate as a request when the top-level object has an `action`
key, as a response otherwise. -/
def decode_message (C : JsonCodec) (data : List ℕ) :
    Except DecodeError TCPMessage :=
  if data.length < 4 then .error .incompleteHeader
  else
    let length := fromBytes4 (data.take 4)
    let json_bytes := (data.drop 4).take length
    if json_bytes.length < length then
      .error (.incompleteBody length json_bytes.length)
    else
      match C.load json_bytes with
      | none => .error .jsonFail
      | some j =>
        if topLevelHasAction j then
          match TCPRequest.fromJsonValue j with
          | some r => .ok (.req r)
          | none => .error .modelFail
        else
          match TCPResponse.fromJsonValue j with
          | some r => .ok (.res r)
          | none => .error .modelFail

/-- The shape of a registered handler (`server.py`): an async function from
the request's `data` dictionary to a result dictionary. A raised exception is
modelled as `Except.error` carrying `str(e)`. -/
def TCPHandler : Type :=
  List (String × Json) → Except String (List (String × Json))

/-- Model of `self.handlers.get(request.action)`; the registration code
registers each action at most once, so first-match lookup agrees with the
Python dictionary. -/
def registryLookup (reg : List (TCPAction × TCPHandler)) (a : TCPAction) :
    Option TCPHandler :=
  match reg with
  | [] => none
  | (a', h) :: rest => if a' = a then some h else registryLookup rest a

/-- Model of `TCPServer.process_request` (`server.py`): look up the handler,
answer `"Acción no soportada: <action>"` when none is registered, wrap a
normal handler return in a success response and a handler exception in an
error response. -/
def TCPServer.process_request (reg : List (TCPAction × TCPHandler))
    (request : TCPRequest) : TCPResponse :=
  match registryLookup reg request.action with
  | none =>
      TCPResponse.create_error ("Acción no soportada: " ++ request.action.value)
        request.request_id
  | some handler =>
      match handler request.data with
      | .ok result => TCPResponse.success result request.request_id
      | .error e => TCPResponse.create_error e request.request_id

/-- Model of the body of `TCPServer.handle_client` (`server.py`) after both
`readexactly` calls have delivered the framed bytes: decode, reject a decoded
response (`"Mensaje recibido no es una solicitud válida"`), dispatch a decoded
request; any exception raised while decoding is caught and answered with
`"Error del servidor: <str(e)>"`. The function is total: every input is
answered with a framed response. -/
def TCPServer.handle_client (C : JsonCodec)
    (reg : List (TCPAction × TCPHandler)) (data : List ℕ) : TCPResponse :=
  match decode_message C data with
  | .ok (.req request) => TCPServer.process_request reg request
  | .ok (.res _) =>
      TCPResponse.create_error
        ("Error del servidor: " ++ "Mensaje recibido no es una solicitud válida")
        none
  | .error e =>
      TCPResponse.create_error ("Error del servidor: " ++ e.message) none

lemma ofString?_value (a : TCPAction) :
    TCPAction.ofString? a.value = some a := by
  cases a <;> rfl

lemma fromBytes4_toBytes4 {n : ℕ} (h : n < 2 ^ 32) :
    fromBytes4 (toBytes4 n) = n := by
  simp only [toBytes4, fromBytes4]
  omega

lemma request_fromJson_toJson (r : TCPRequest) :
    TCPRequest.fromJsonValue r.toJsonValue = some r := by
  obtain ⟨a, d, rid⟩ := r
  cases rid <;>
    simp [TCPRequest.fromJsonValue, TCPRequest.toJsonValue, lookupKey,
      validateOptStr, optStrJson, ofString?_value]

lemma response_fromJson_toJson (r : TCPResponse) :
    TCPResponse.fromJsonValue r.toJsonValue = some r := by
  obtain ⟨st, res, err, rid⟩ := r
  cases res <;> cases err <;> cases rid <;>
    simp [TCPResponse.fromJsonValue, TCPResponse.toJsonValue, lookupKey,
      validateOptStr, validateOptObj, optStrJson, optObjJson]

lemma hasAction_request (r : TCPRequest) :
    topLevelHasAction r.toJsonValue = true := rfl

lemma hasAction_response (r : TCPResponse) :
    topLevelHasAction r.toJsonValue = false := rfl

/-- C6: encoding a well-formed request or response with `encode_message` and
decoding the frame with `decode_message` yields the original message, for any
payload/codec behaviour on which the external JSON layer round-trips and any
payload size the 4-byte length prefix can carry (below 2^32 bytes; this
covers the empty `data` object and megabyte-scale payloads alike). -/
theorem C6_framing_roundtrip (C : JsonCodec) (m : TCPMessage)
    (hload : C.load (C.dump m.toJsonValue) = some m.toJsonValue)
    (hlen : (C.dump m.toJsonValue).length < 2 ^ 32) :
    ∃ bs, encode_message C m = some bs ∧
      decode_message C bs = Except.ok m := by
  refine ⟨toBytes4 (C.dump m.toJsonValue).length ++ C.dump m.toJsonValue,
    ?_, ?_⟩
  · simp only [encode_message]
    rw [if_pos hlen]
  · have h4 : (toBytes4 (C.dump m.toJsonValue).length).length = 4 := rfl
    have htake : (toBytes4 (C.dump m.toJsonValue).length ++
        C.dump m.toJsonValue).take 4 = toBytes4 (C.dump m.toJsonValue).length := by
      rw [← h4, List.take_left]
    have hdrop : (toBytes4 (C.dump m.toJsonValue).length ++
        C.dump m.toJsonValue).drop 4 = C.dump m.toJsonValue := by
      rw [← h4, List.drop_left]
    simp only [decode_message, List.length_append, h4, htake, hdrop,
      fromBytes4_toBytes4 hlen, List.take_length, lt_irrefl, if_false]
    have hcond : ¬ (4 + (C.dump m.toJsonValue).length < 4) := by omega
    simp only [hcond, if_false, hload]
    cases m with
    | req r =>
        simp [TCPMessage.toJsonValue, hasAction_request,
          request_fromJson_toJson]
    | res r =>
        simp [TCPMessage.toJsonValue, hasAction_response,
          response_fromJson_toJson]

/-- Witness for C6 at a concrete message and a concrete codec behaving as an
inverse pair on that message's document. -/
def pingMessage : TCPMessage :=
  TCPMessage.req { action := TCPAction.ping, data := [], request_id := none }

/-- A concrete codec that serializes `pingMessage`'s JSON document to a
single byte; it satisfies the round-trip hypothesis at that document. -/
def pingCodec : JsonCodec where
  dump := fun _ => [42]
  load := fun bs => if bs = [42] then some pingMessage.toJsonValue else none

theorem C6_framing_roundtrip_witness :
    ∃ bs, encode_message pingCodec pingMessage = some bs ∧
      decode_message pingCodec bs = Except.ok pingMessage :=
  C6_framing_roundtrip pingCodec pingMessage (by rfl) (by norm_num [pingCodec])

/-- C7: a buffer shorter than 4 bytes, or whose declared big-endian length
exceeds the bytes available after the prefix, makes `decode_message` fail
with one of the two `"Mensaje incompleto"` errors; no message value is
produced. -/
theorem C7_incomplete_buffer (C : JsonCodec) (data : List ℕ)
    (h : data.length < 4 ∨ data.length - 4 < fromBytes4 (data.take 4)) :
    ∃ e, decode_message C data = Except.error e ∧ e.isIncomplete = true ∧
      ∃ rest, e.message = "Mensaje incompleto" ++ rest := by
  by_cases hlen : data.length < 4
  · exact ⟨DecodeError.incompleteHeader, by simp [decode_message, hlen],
      rfl, ": faltan bytes de longitud", rfl⟩
  · have hdecl : data.length - 4 < fromBytes4 (data.take 4) := by
      rcases h with h | h
      · exact absurd h hlen
      · exact h
    refine ⟨DecodeError.incompleteBody (fromBytes4 (data.take 4))
      ((data.drop 4).take (fromBytes4 (data.take 4))).length, ?_, rfl, ?_⟩
    · simp [decode_message, hlen]
      intro hc
      exact absurd hdecl (Nat.not_lt.mpr hc)
    · have hsplit : ("Mensaje incompleto: esperaba " : String) =
          "Mensaje incompleto" ++ ": esperaba " := by decide
      exact ⟨": esperaba " ++ toString (fromBytes4 (data.take 4)) ++
        " bytes, recibió " ++
        toString ((data.drop 4).take (fromBytes4 (data.take 4))).length, by
          simp only [DecodeError.message, String.append_assoc]
          rw [← String.append_assoc "Mensaje incompleto" ": esperaba ", ← hsplit]⟩

theorem C7_incomplete_buffer_witness :
    ∃ e, decode_message pingCodec [0, 0, 0, 2] = Except.error e ∧
      e.isIncomplete = true ∧
      ∃ rest, e.message = "Mensaje incompleto" ++ rest :=
  C7_incomplete_buffer pingCodec [0, 0, 0, 2] (Or.inr (by decide))

/-- The parsed JSON document of a framed request whose action string,
`"does_not_exist"`, is not a member of the protocol enum. -/
def doesNotExistJson : Json :=
  Json.obj [("action", Json.str "does_not_exist"), ("data", Json.obj []),
    ("request_id", Json.null)]

/-- A codec under which the one-byte payload `[7]` parses to
`doesNotExistJson`. -/
def dneCodec : JsonCodec where
  dump := fun _ => [7]
  load := fun bs => if bs = [7] then some doesNotExistJson else none

/-- The framed bytes of the unknown-action request under `dneCodec`. -/
def dneBytes : List ℕ := toBytes4 1 ++ [7]

/-- C4 counterexample: a framed request with action string
`"does_not_exist"` fails pydantic validation inside `decode_message` (the
string is not a `TCPAction` member), so `handle_client` answers with the
catch-all `"Error del servidor: <exception text>"` response and never
reaches the handler registry — the registry argument is irrelevant here and
is passed empty. The reply has status `"error"` but its message is not of
the claimed form `"Acción no soportada: does_not_exist"`. -/
theorem C4_counterexample :
    decode_message dneCodec dneBytes = Except.error DecodeError.modelFail ∧
    (TCPServer.handle_client dneCodec [] dneBytes).status = "error" ∧
    (TCPServer.handle_client dneCodec [] dneBytes).error.map
      (fun s => s.take 20) = some "Error del servidor: " ∧
    (TCPServer.handle_client dneCodec [] dneBytes).error ≠
      some "Acción no soportada: does_not_exist" := by
  refine ⟨rfl, rfl, rfl, by decide⟩

/-- C4 (amended): a framed request whose action string is one of the
protocol enum values but has no registered handler is answered with status
`"error"` and the exact message `"Acción no soportada: <action>"`; a framed
buffer whose decoding raises (in particular an action string outside the
enum, which fails validation) is answered with status `"error"` and the
message `"Error del servidor: <exception text>"`. In both cases a framed
response is produced — the connection is never aborted without one. -/
theorem C4_unsupported_action_amended :
    (∀ (reg : List (TCPAction × TCPHandler)) (r : TCPRequest),
        registryLookup reg r.action = none →
        TCPServer.process_request reg r =
          TCPResponse.create_error
            ("Acción no soportada: " ++ r.action.value) r.request_id) ∧
    (∀ (C : JsonCodec) (reg : List (TCPAction × TCPHandler)) (data : List ℕ)
        (e : DecodeError), decode_message C data = Except.error e →
        TCPServer.handle_client C reg data =
          TCPResponse.create_error ("Error del servidor: " ++ e.message) none) := by
  constructor
  · intro reg r h
    simp [TCPServer.process_request, h]
  · intro C reg data e h
    simp [TCPServer.handle_client, h]

theorem C4_unsupported_action_amended_witness :
    TCPServer.process_request []
        { action := TCPAction.update_clusters, data := [], request_id := none } =
      TCPResponse.create_error "Acción no soportada: update_clusters" none ∧
    TCPServer.handle_client dneCodec [] dneBytes =
      TCPResponse.create_error
        ("Error del servidor: " ++ DecodeError.modelFail.message) none := by
  constructor
  · exact C4_unsupported_action_amended.1 []
      { action := TCPAction.update_clusters, data := [], request_id := none } rfl
  · exact C4_unsupported_action_amended.2 dneCodec [] dneBytes
      DecodeError.modelFail rfl

/-- Generic first-match association-list lookup (model of a Python `dict`
built with unique keys). -/
def alistLookup {α β : Type} [DecidableEq α] (l : List (α × β)) (k : α) :
    Option β :=
  match l with
  | [] => none
  | (k', v) :: rest => if k' = k then some v else alistLookup rest k

/-- Python `str(x)` on an optional string (`None` prints as `"None"`). -/
def pyStr : Option String → String
  | none => "None"
  | some s => s

/-- SQL equality of a nullable query parameter with a nullable text column:
a comparison involving SQL `NULL` is never true. -/
def sqlEq : Option String → Option String → Bool
  | some a, some b => a = b
  | _, _ => false

/-- A row of the `langchain_pg_embedding` table, with the
`langchain_pg_collection` join collapsed: `collection` holds the collection
name (`lpc.name`, the user id), standing for the uuid the row stores. -/
structure EmbRow where
  id : ℕ
  collection : String
  document : Option String
  embedding : List ℚ
deriving DecidableEq, Repr

/-- A row of the `documents` metadata table (only the columns the pipeline
reads are modelled). -/
structure DocumentRow where
  id : String
  filename : String
deriving DecidableEq, Repr

/-- A row of `ml_clusters`: serial primary key `pk` (column `id`), owner,
numeric cluster id, and the attributes written by `save_clusters`. -/
structure ClusterRow where
  pk : ℕ
  user_id : Option String
  cluster_id : ℤ
  label : String
  size : ℕ
  keywords : List String
  centroid : List ℚ
deriving DecidableEq, Repr

/-- A row of `ml_document_clusters`: unique per document; `cluster_pk`
references `ml_clusters.id` (or is SQL `NULL` for outliers). -/
structure DocClusterRow where
  document_id : String
  cluster_pk : Option ℕ
  probability : Option ℚ
  is_outlier : Bool
deriving DecidableEq, Repr

/-- A row of `ml_visualizations`, unique per `(user_id, document_id)`. -/
structure VizRow where
  user_id : Option String
  document_id : String
  x : ℚ
  y : ℚ
  cluster_id : ℤ
deriving DecidableEq, Repr

/-- A row of `ml_recommendations`. -/
structure RecRow where
  document_id : String
  recommended_document_id : String
  similarity_score : ℚ
  rank : ℕ
deriving DecidableEq, Repr

/-- The relational state touched by the pipeline: the embedding store, the
document metadata, and the four ML result tables. `cluster_seq` is the next
serial `id` of `ml_clusters`; lists are in physical insertion order (updates
happen in place). -/
structure Store where
  lpe : List EmbRow
  documents : List DocumentRow
  ml_clusters : List ClusterRow
  cluster_seq : ℕ
  ml_document_clusters : List DocClusterRow
  ml_visualizations : List VizRow
  ml_recommendations : List RecRow
deriving DecidableEq, Repr

/-- Lexicographic comparison of character lists by code point. -/
def charListLtb : List Char → List Char → Bool
  | [], [] => false
  | [], _ :: _ => true
  | _ :: _, [] => false
  | a :: as, b :: bs =>
      if a.toNat < b.toNat then true
      else if b.toNat < a.toNat then false
      else charListLtb as bs

/-- The text ordering used by SQL `ORDER BY` on document ids, modelled as
code-point order (the C collation). -/
def strLtb (a b : String) : Bool := charListLtb a.data b.data

/-- Insert a string into an ascending sorted list, dropping duplicates. -/
def strInsertSorted (s : String) : List String → List String
  | [] => [s]
  | t :: ts =>
      if strLtb s t then s :: t :: ts
      else if s = t then t :: ts
      else t :: strInsertSorted s ts

/-- Ascending duplicate-free sort, the order `ORDER BY lpe.document`
produces on distinct text values. -/
def distinctSorted (l : List String) : List String :=
  l.foldr strInsertSorted []

/-- The embedding rows of a user's collection with non-null `document`
(the `WHERE` clause of `get_embeddings_by_user`). -/
def userRows (store : Store) (user_id : Option String) : List EmbRow :=
  store.lpe.filter (fun r => sqlEq user_id (some r.collection) && r.document.isSome)

/-- The row selected by `DISTINCT ON (lpe.document) ... ORDER BY
lpe.document, lpe.id DESC` for one document value: the row with the highest
`id`. -/
def latestRowFor (rows : List EmbRow) (d : String) : Option EmbRow :=
  rows.foldl (fun acc r =>
    if r.document = some d then
      match acc with
      | none => some r
      | some b => if b.id < r.id then some r else some b
    else acc) none

/-- The `(document, embedding)` pairs returned by
`PersistenceAdapter.get_embeddings_by_user`, in result-set order (ascending
by document, one row per document, highest `id` wins). -/
def embeddingPairs (store : Store) (user_id : Option String) :
    List (String × List ℚ) :=
  let rows := userRows store user_id
  (distinctSorted (rows.filterMap (fun r => r.document))).filterMap
    (fun d => (latestRowFor rows d).map (fun r => (d, r.embedding)))

/-- Model of `PersistenceAdapter.get_embeddings_by_user`
(`persistence_adapter.py`): the parallel `(document_ids, embeddings)`
arrays. -/
def get_embeddings_by_user (store : Store) (user_id : Option String) :
    List String × List (List ℚ) :=
  ((embeddingPairs store user_id).map Prod.fst,
   (embeddingPairs store user_id).map Prod.snd)

/-- Model of `PersistenceAdapter.get_document_metadata`: the
`id → filename` dictionary for the requested ids (rows in table order; the
other selected columns are not read by the pipeline). -/
def get_document_metadata (store : Store) (document_ids : List String) :
    List (String × String) :=
  (store.documents.filter (fun d => document_ids.contains d.id)).map
    (fun d => (d.id, d.filename))

/-- One upsert of `save_clusters`: `ON CONFLICT (user_id, cluster_id) DO
UPDATE` updates the conflicting row in place, otherwise the row is appended
with the next serial id. A SQL `NULL` owner never conflicts. -/
def upsertClusterRow (tbl : List ClusterRow) (seq : ℕ)
    (user_id : Option String) (c : ClusterRow) : List ClusterRow × ℕ :=
  if tbl.any (fun r => sqlEq r.user_id user_id && r.cluster_id = c.cluster_id) then
    (tbl.map (fun r =>
      if sqlEq r.user_id user_id && r.cluster_id = c.cluster_id then
        { r with label := c.label, size := c.size, keywords := c.keywords,
                 centroid := c.centroid }
      else r), seq)
  else
    (tbl ++ [{ c with pk := seq, user_id := user_id }], seq + 1)

/-- Model of `PersistenceAdapter.save_clusters`: optionally delete the
user's existing clusters, then insert/update each produced cluster keyed by
`(user_id, cluster_id)`. The `pk`/`user_id` fields of the incoming
`ClusterRow` values are placeholders overwritten on insert. -/
def save_clusters (store : Store) (user_id : Option String)
    (cluster_data : List ClusterRow) (delete_existing : Bool) : Store :=
  let tbl0 := if delete_existing then
      store.ml_clusters.filter (fun r => !sqlEq r.user_id user_id)
    else store.ml_clusters
  let res := cluster_data.foldl
    (fun acc c => upsertClusterRow acc.1 acc.2 user_id c)
    (tbl0, store.cluster_seq)
  { store with ml_clusters := res.1, cluster_seq := res.2 }

/-- The `cluster_id → ml_clusters.id` dictionary `save_document_clusters`
builds from `SELECT id, cluster_id FROM ml_clusters` — over every owner's
rows, the scan's last row winning for each numeric id. -/
def clusterIdMap (store : Store) (cid : ℤ) : Option ℕ :=
  store.ml_clusters.foldl
    (fun acc r => if r.cluster_id = cid then some r.pk else acc) none

/-- One upsert of `save_document_clusters` (`ON CONFLICT (document_id) DO
UPDATE`). -/
def upsertDocClusterRow (tbl : List DocClusterRow) (row : DocClusterRow) :
    List DocClusterRow :=
  if tbl.any (fun r => r.document_id = row.document_id) then
    tbl.map (fun r => if r.document_id = row.document_id then row else r)
  else tbl ++ [row]

/-- Model of `PersistenceAdapter.save_document_clusters`: resolve each
non-outlier label through `clusterIdMap` (skipping labels with no resolved
cluster row), and upsert one assignment row per document. `labels` and
`probabilities` are read positionally alongside `document_ids`. -/
def save_document_clusters (store : Store) (document_ids : List String)
    (labels : List ℤ) (probabilities : Option (List ℚ)) : Store :=
  let tbl := ((document_ids.zip labels).enum).foldl (fun tbl p =>
    let doc_id := p.2.1
    let cluster_label := p.2.2
    let is_out : Bool := cluster_label = -1
    let prob : Option ℚ := match probabilities with
      | none => none
      | some ps => some (ps.getD p.1 0)
    let cluster_pk := clusterIdMap store cluster_label
    if cluster_pk = none && !is_out then tbl
    else upsertDocClusterRow tbl
      { document_id := doc_id, cluster_pk := cluster_pk,
        probability := prob, is_outlier := is_out })
    store.ml_document_clusters
  { store with ml_document_clusters := tbl }

/-- The separator class of the regex `[-_\s]+` used by
`_find_common_words` (ASCII whitespace as matched by Python `\s`). -/
def isSepChar (c : Char) : Bool :=
  c = '-' || c = '_' || c = ' ' || c = '\t' || c = '\n' || c = '\r' ||
  c = '\x0b' || c = '\x0c'

/-- Split on runs of separator characters, keeping the (possibly empty)
boundary tokens `re.split` produces; empty tokens are discarded later by the
minimum-length filter. -/
def splitTokens (s : String) : List String :=
  (s.data.foldr (fun c acc =>
    if isSepChar c then [] :: acc
    else match acc with
      | [] => [[c]]
      | g :: gs => (c :: g) :: gs) []).map (fun g => String.mk g)

/-- Python `filename.rsplit(".", 1)[0]`: everything before the last dot, or
the whole string when there is none. -/
def stripExtension (filename : String) : String :=
  let rev := filename.data.reverse
  if rev.contains '.' then
    String.mk (((rev.dropWhile (fun c => c ≠ '.')).drop 1).reverse)
  else filename

/-- Python `str.isdigit` restricted to ASCII: non-empty and all digits. -/
def pyIsDigit (s : String) : Bool :=
  !s.isEmpty && s.data.all Char.isDigit

/-- The word list `_find_common_words` extracts from one filename: strip the
extension, lowercase, split, and keep tokens that are long enough and not
purely numeric. -/
def fileTokens (min_length : ℕ) (filename : String) : List String :=
  (splitTokens (stripExtension filename).toLower).filter
    (fun w => decide (min_length ≤ w.length) && !pyIsDigit w)

/-- Occurrence counts in first-occurrence order, the iteration order of a
Python `Counter`. -/
def countsInOrder (ws : List String) : List (String × ℕ) :=
  ws.foldl (fun acc w =>
    if acc.any (fun p => p.1 = w) then
      acc.map (fun p => if p.1 = w then (p.1, p.2 + 1) else p)
    else acc ++ [(w, 1)]) []

/-- Stable insertion into a count-descending list (equal counts keep their
earlier-first order, as `Counter.most_common` does). -/
def insertByCount (p : String × ℕ) : List (String × ℕ) → List (String × ℕ)
  | [] => [p]
  | q :: qs => if q.2 < p.2 then p :: q :: qs else q :: insertByCount p qs

/-- Stable count-descending sort. -/
def sortByCountDesc (l : List (String × ℕ)) : List (String × ℕ) :=
  l.foldl (fun acc p => insertByCount p acc) []

/-- Model of `ClusterDocumentsUseCase._find_common_words`: the three most
common tokens across the given filenames. -/
def find_common_words (filenames : List String) (min_length : ℕ) :
    List String :=
  ((sortByCountDesc (countsInOrder
    ((filenames.map (fileTokens min_length)).flatten))).take 3).map Prod.fst

/-- Python `str.title()` for ASCII text: a letter is uppercased after a
non-letter and lowercased otherwise. -/
def pyTitle (s : String) : String :=
  String.mk (s.data.foldl (fun (acc : List Char × Bool) c =>
    let c' := if c.isAlpha then (if acc.2 then c.toLower else c.toUpper) else c
    (acc.1 ++ [c'], c.isAlpha)) ([], false)).1

/-- Insert an integer into an ascending sorted list, dropping duplicates. -/
def intInsertSorted (a : ℤ) : List ℤ → List ℤ
  | [] => [a]
  | b :: bs =>
      if a < b then a :: b :: bs
      else if a = b then b :: bs
      else b :: intInsertSorted a bs

/-- Model of `np.unique`: the distinct values in ascending order. -/
def npUnique (l : List ℤ) : List ℤ := l.foldr intInsertSorted []

/-- The sorted distinct non-outlier labels, `unique_labels[unique_labels >= 0]`. -/
def nonNegUnique (l : List ℤ) : List ℤ :=
  (npUnique l).filter (fun a => decide (0 ≤ a))

/-- How many points carry a given label. -/
def countLabel (labels : List ℤ) (cid : ℤ) : ℕ :=
  (labels.filter (fun l => l = cid)).length

/-- The statistics dictionary of `HDBSCANAdapter.get_cluster_statistics`. -/
structure ClusterStats where
  num_clusters : ℕ
  num_outliers : ℕ
  total_documents : ℕ
  outlier_percentage : ℚ
  cluster_sizes : List (ℤ × ℕ)
  cluster_ids : List ℤ
deriving DecidableEq, Repr

/-- Model of `HDBSCANAdapter.get_cluster_statistics` as a function of the
fitted labels (the adapter stores them after `fit`). The percentage uses
exact rational arithmetic; it is only evaluated with at least 3 documents. -/
def get_cluster_statistics (labels : List ℤ) : ClusterStats :=
  let clusters := nonNegUnique labels
  { num_clusters := clusters.length
    num_outliers := countLabel labels (-1)
    total_documents := labels.length
    outlier_percentage := (countLabel labels (-1) : ℚ) / labels.length * 100
    cluster_sizes := clusters.map (fun cid => (cid, countLabel labels cid))
    cluster_ids := clusters }

/-- Componentwise vector sum. -/
def vecAdd (a b : List ℚ) : List ℚ := List.zipWith (· + ·) a b

/-- Model of `np.mean(vectors, axis=0)` over equal-length vectors. -/
def vecMean (vs : List (List ℚ)) : List ℚ :=
  match vs with
  | [] => []
  | v :: rest => (rest.foldl vecAdd v).map (fun x => x / (vs.length : ℚ))

/-- Model of `HDBSCANAdapter.get_cluster_centroids`: the mean reduced vector
of each non-outlier cluster's members. -/
def get_cluster_centroids (labels : List ℤ) (embeddings : List (List ℚ)) :
    List (ℤ × List ℚ) :=
  (nonNegUnique labels).map (fun cid =>
    (cid, vecMean (((labels.zip embeddings).filter
      (fun p => p.1 = cid)).map Prod.snd)))

/-- The filenames of one cluster's member documents that have metadata rows,
shared by `_generate_cluster_labels` and
`_extract_keywords_from_filenames`. -/
def clusterDocFilenames (doc_ids : List String) (labels : List ℤ)
    (metadata : List (String × String)) (cluster_id : ℤ) : List String :=
  ((doc_ids.zip labels).filter (fun p => p.2 = cluster_id)).filterMap
    (fun p => alistLookup metadata p.1)

/-- Model of `ClusterDocumentsUseCase._generate_cluster_labels`. -/
def generate_cluster_labels (doc_ids : List String) (labels : List ℤ)
    (metadata : List (String × String)) : List (ℤ × String) :=
  (nonNegUnique labels).map (fun cid =>
    let filenames := clusterDocFilenames doc_ids labels metadata cid
    let label :=
      if filenames.isEmpty then "Cluster " ++ toString cid
      else match find_common_words filenames 4 with
        | [] => "Documentos - Grupo " ++ toString cid
        | w :: _ => pyTitle w
    (cid, label))

/-- Model of `ClusterDocumentsUseCase._extract_keywords_from_filenames`. -/
def extract_keywords_from_filenames (doc_ids : List String) (labels : List ℤ)
    (cluster_id : ℤ) (metadata : List (String × String)) : List String :=
  (find_common_words (clusterDocFilenames doc_ids labels metadata cluster_id)
    3).take 10

/-- Round half to even, the semantics of Python `round`. -/
def roundHalfEven (q : ℚ) : ℤ :=
  let f := ⌊q⌋
  let r := q - (f : ℚ)
  if r < 1 / 2 then f
  else if 1 / 2 < r then f + 1
  else if f % 2 = 0 then f else f + 1

/-- Python `round(x, 2)` on exact rationals. -/
def pyRound2 (q : ℚ) : ℚ := (roundHalfEven (q * 100) : ℚ) / 100

/-- Python `round(x, 4)` on exact rationals. -/
def pyRound4 (q : ℚ) : ℚ := (roundHalfEven (q * 10000) : ℚ) / 10000

/-- The dictionary `{"success": False, "error": msg}` every orchestrator
returns on failure or caught exception. -/
def failDict (msg : String) : List (String × Json) :=
  [("success", Json.bool false), ("error", Json.str msg)]

/-- The zero-documents error message of `ClusterDocumentsUseCase.execute`. -/
def noDocumentsMsg (user_id : Option String) : String :=
  "No se encontraron documentos para user_id=" ++ pyStr user_id

/-- The fewer-than-3-documents error message of
`ClusterDocumentsUseCase.execute`. -/
def insufficientDocsMsg (found : ℕ) : String :=
  "Se necesitan al menos 3 documentos para clustering (encontrados: " ++
    toString found ++ ")"

/-- The external UMAP reduction (`umap.UMAP(...).fit_transform`), as a
parameter: it either returns the reduced vectors or raises. -/
def UmapFit : Type := List (List ℚ) → Except String (List (List ℚ))

/-- The external HDBSCAN fit (`hdbscan.HDBSCAN(...).fit_predict` plus
`probabilities_`), as a parameter: labels (−1 = outlier) and membership
probabilities, or an exception. -/
def HdbscanFit : Type := List (List ℚ) → Except String (List ℤ × List ℚ)

/-- The `document_ids` subset filter of `ClusterDocumentsUseCase.execute`.
Python's `if document_ids:` is falsy for both `None` and the empty list, in
which case no filtering happens; otherwise documents are kept in their
original order when they belong to the subset, and the embedding matrix is
filtered by the same indices. -/
def applySubsetFilter (doc_ids : List String) (embeddings : List (List ℚ)) :
    Option (List String) → List String × List (List ℚ)
  | none => (doc_ids, embeddings)
  | some [] => (doc_ids, embeddings)
  | some subset =>
      let pairs := (doc_ids.zip embeddings).filter
        (fun p => subset.contains p.1)
      (pairs.map Prod.fst, pairs.map Prod.snd)

/-- The success dictionary returned by `ClusterDocumentsUseCase.execute`
(centroids are persisted but not returned). -/
def clusterSuccessDict (user_id : Option String) (docCount : ℕ)
    (stats : ClusterStats) (cluster_data : List ClusterRow) :
    List (String × Json) :=
  [("success", Json.bool true),
   ("user_id", optStrJson user_id),
   ("total_documents", Json.num docCount),
   ("num_clusters", Json.num stats.num_clusters),
   ("num_outliers", Json.num stats.num_outliers),
   ("outlier_percentage", Json.num (pyRound2 stats.outlier_percentage)),
   ("clusters", Json.arr (cluster_data.map (fun c =>
      Json.obj [("cluster_id", Json.num c.cluster_id),
                ("label", Json.str c.label),
                ("size", Json.num c.size),
                ("keywords", Json.arr (c.keywords.map Json.str))])))]

/-- Step 6 of `ClusterDocumentsUseCase.execute`: the cluster rows prepared
for saving, one per non-outlier label, carrying label, size, keywords and
centroid (`pk`/`user_id` are placeholders overwritten on insert). -/
def runClusterData (store : Store) (user_id : Option String)
    (doc_ids : List String) (labels : List ℤ) (reduced : List (List ℚ)) :
    List ClusterRow :=
  let stats := get_cluster_statistics labels
  let centroids := get_cluster_centroids labels reduced
  let metadata := get_document_metadata store doc_ids
  let cluster_labels := generate_cluster_labels doc_ids labels metadata
  stats.cluster_ids.map (fun cid =>
    { pk := 0
      user_id := user_id
      cluster_id := cid
      label := (alistLookup cluster_labels cid).getD
        ("Cluster " ++ toString cid)
      size := (alistLookup stats.cluster_sizes cid).getD 0
      keywords := extract_keywords_from_filenames doc_ids labels cid metadata
      centroid := (alistLookup centroids cid).getD [] })

/-- Steps 2–8 of `ClusterDocumentsUseCase.execute`, after the
document-count checks and subset filtering: reduce, cluster, build
statistics/labels/keywords, persist clusters and assignments, and build the
success dictionary. Adapter exceptions are the caught-exception path of the
surrounding `try`, yielding `failDict` with the store unchanged. -/
def clusterPipelineTail (umapFit : UmapFit) (hdbscanFit : HdbscanFit)
    (store : Store) (user_id : Option String) (doc_ids : List String)
    (embeddings : List (List ℚ)) (force_recluster : Bool) :
    List (String × Json) × Store :=
  match umapFit embeddings with
  | .error e => (failDict e, store)
  | .ok reduced =>
    match hdbscanFit reduced with
    | .error e => (failDict e, store)
    | .ok (labels, probabilities) =>
      let cluster_data := runClusterData store user_id doc_ids labels reduced
      let store1 := save_clusters store user_id cluster_data force_recluster
      let store2 := save_document_clusters store1 doc_ids labels
        (some probabilities)
      (clusterSuccessDict user_id doc_ids.length
        (get_cluster_statistics labels) cluster_data, store2)

/-- Model of `ClusterDocumentsUseCase.execute` (`cluster_documents.py`):
load the owner's full embedding set, fail on zero or fewer than 3
documents, apply the optional subset filter, then run the pipeline tail.
The returned store is the persisted state after the call. -/
def ClusterDocumentsUseCase.execute (umapFit : UmapFit)
    (hdbscanFit : HdbscanFit) (store : Store) (user_id : Option String)
    (document_ids : Option (List String)) (force_recluster : Bool) :
    List (String × Json) × Store :=
  let de := get_embeddings_by_user store user_id
  if de.1.length = 0 then (failDict (noDocumentsMsg user_id), store)
  else if de.1.length < 3 then
    (failDict (insufficientDocsMsg de.1.length), store)
  else
    let filtered := applySubsetFilter de.1 de.2 document_ids
    clusterPipelineTail umapFit hdbscanFit store user_id filtered.1
      filtered.2 force_recluster

/-- C5: `cluster_documents` fails with the "no documents" message when the
owner's full embedding set is empty and with the "insufficient documents"
message when it has fewer than 3 entries; both checks read the full set
(the subset argument is arbitrary and unconsulted) and in both cases the
returned store is the input store — nothing is clustered or persisted. -/
theorem C5_document_count_checks (umapFit : UmapFit)
    (hdbscanFit : HdbscanFit) (store : Store) (user_id : Option String)
    (document_ids : Option (List String)) (force_recluster : Bool) :
    ((get_embeddings_by_user store user_id).1.length = 0 →
      ClusterDocumentsUseCase.execute umapFit hdbscanFit store user_id
        document_ids force_recluster =
        (failDict (noDocumentsMsg user_id), store)) ∧
    (0 < (get_embeddings_by_user store user_id).1.length →
      (get_embeddings_by_user store user_id).1.length < 3 →
      ClusterDocumentsUseCase.execute umapFit hdbscanFit store user_id
        document_ids force_recluster =
        (failDict (insufficientDocsMsg
          (get_embeddings_by_user store user_id).1.length), store)) := by
  constructor
  · intro h
    simp [ClusterDocumentsUseCase.execute, h]
  · intro h0 h3
    have hne : ¬ ((get_embeddings_by_user store user_id).1.length = 0) := by
      omega
    simp [ClusterDocumentsUseCase.execute, hne, h3]

/-- A store with no rows at all. -/
def emptyStore : Store :=
  { lpe := [], documents := [], ml_clusters := [], cluster_seq := 1,
    ml_document_clusters := [], ml_visualizations := [],
    ml_recommendations := [] }

/-- A store in which user `"u"` owns exactly two embeddings. -/
def twoDocStore : Store :=
  { emptyStore with lpe :=
      [{ id := 1, collection := "u", document := some "a", embedding := [1] },
       { id := 2, collection := "u", document := some "b", embedding := [2] }] }

theorem C5_document_count_checks_witness :
    ClusterDocumentsUseCase.execute (fun v => Except.ok v)
        (fun _ => Except.ok ([], [])) emptyStore (some "u") none false =
      (failDict (noDocumentsMsg (some "u")), emptyStore) ∧
    ClusterDocumentsUseCase.execute (fun v => Except.ok v)
        (fun _ => Except.ok ([], [])) twoDocStore (some "u") none false =
      (failDict (insufficientDocsMsg 2), twoDocStore) := by
  constructor
  · exact (C5_document_count_checks (fun v => Except.ok v)
      (fun _ => Except.ok ([], [])) emptyStore (some "u") none false).1 rfl
  · have h2 : (get_embeddings_by_user twoDocStore (some "u")).1.length = 2 :=
      rfl
    have h := (C5_document_count_checks (fun v => Except.ok v)
      (fun _ => Except.ok ([], [])) twoDocStore (some "u") none false).2
      (by rw [h2]; omega) (by rw [h2]; omega)
    rw [h2] at h
    exact h

/-- C10: when the owner's full embedding set passes both count checks
(at least 3 documents), a subset filter that retains fewer than 3 documents
— possibly zero — does not re-trigger the checks: the call proceeds into
the reduction/clustering pipeline tail applied to exactly the filtered
document list and embedding matrix. -/
theorem C10_checks_precede_subset_filter (umapFit : UmapFit)
    (hdbscanFit : HdbscanFit) (store : Store) (user_id : Option String)
    (subset : List String) (force_recluster : Bool)
    (h3 : 3 ≤ (get_embeddings_by_user store user_id).1.length)
    (hsub : (applySubsetFilter (get_embeddings_by_user store user_id).1
      (get_embeddings_by_user store user_id).2 (some subset)).1.length < 3) :
    ClusterDocumentsUseCase.execute umapFit hdbscanFit store user_id
        (some subset) force_recluster =
      clusterPipelineTail umapFit hdbscanFit store user_id
        (applySubsetFilter (get_embeddings_by_user store user_id).1
          (get_embeddings_by_user store user_id).2 (some subset)).1
        (applySubsetFilter (get_embeddings_by_user store user_id).1
          (get_embeddings_by_user store user_id).2 (some subset)).2
        force_recluster := by
  have h0 : ¬ ((get_embeddings_by_user store user_id).1.length = 0) := by
    omega
  have hlt : ¬ ((get_embeddings_by_user store user_id).1.length < 3) := by
    omega
  simp [ClusterDocumentsUseCase.execute, h0, hlt]

/-- A store in which user `"u"` owns three embeddings. -/
def threeDocStore : Store :=
  { emptyStore with lpe :=
      [{ id := 1, collection := "u", document := some "a", embedding := [1] },
       { id := 2, collection := "u", document := some "b", embedding := [2] },
       { id := 3, collection := "u", document := some "c", embedding := [3] }] }

theorem C10_checks_precede_subset_filter_witness :
    ClusterDocumentsUseCase.execute (fun v => Except.ok v)
        (fun _ => Except.ok ([0], [1])) threeDocStore (some "u")
        (some ["a"]) false =
      clusterPipelineTail (fun v => Except.ok v)
        (fun _ => Except.ok ([0], [1])) threeDocStore (some "u")
        (applySubsetFilter (get_embeddings_by_user threeDocStore (some "u")).1
          (get_embeddings_by_user threeDocStore (some "u")).2 (some ["a"])).1
        (applySubsetFilter (get_embeddings_by_user threeDocStore (some "u")).1
          (get_embeddings_by_user threeDocStore (some "u")).2 (some ["a"])).2
        false :=
  C10_checks_precede_subset_filter (fun v => Except.ok v)
    (fun _ => Except.ok ([0], [1])) threeDocStore (some "u") ["a"] false
    (by decide) (by decide)

/-- Python `data.get(key)` for the string-valued fields handlers extract
(`user_id`, `document_id`): absent, `null` or non-string values collapse to
`None`. -/
def getStrField (data : List (String × Json)) (k : String) : Option String :=
  match lookupKey data k with
  | some (Json.str s) => some s
  | _ => none

/-- Python `data.get("document_ids")` as the optional list of document id
strings the use cases consume. -/
def getDocIdsField (data : List (String × Json)) : Option (List String) :=
  match lookupKey data "document_ids" with
  | some (Json.arr js) => some (js.filterMap (fun j =>
      match j with
      | Json.str s => some s
      | _ => none))
  | _ => none

/-- Python truthiness of a JSON value, used for flag fields read with
`data.get(key, False)`. -/
def jsonTruthy : Json → Bool
  | Json.null => false
  | Json.bool b => b
  | Json.num q => decide (q ≠ 0)
  | Json.str s => !s.isEmpty
  | Json.arr xs => !xs.isEmpty
  | Json.obj kvs => !kvs.isEmpty

/-- Model of `handle_cluster_documents` (`handlers.py`): extract the fields
from `data` and run the use case; the use case catches its own exceptions,
so the handler never raises. The handler's store and the external adapters
are parameters of the model. -/
def handle_cluster_documents (umapFit : UmapFit) (hdbscanFit : HdbscanFit)
    (store : Store) : TCPHandler := fun data =>
  Except.ok (ClusterDocumentsUseCase.execute umapFit hdbscanFit store
    (getStrField data "user_id") (getDocIdsField data)
    (jsonTruthy ((lookupKey data "force_recluster").getD (Json.bool false)))).1

/-- C8: an unexpected exception inside the orchestrator's computation (here
the UMAP reduction raising `e`) is caught at the use-case boundary and
returned as the nested `{"success": false, "error": e}` dictionary; the
transport still wraps it in a `status = "success"` envelope, so the caller
must inspect both the envelope status and the nested `success` flag. -/
theorem C8_nested_error_envelope (store : Store) (uid : String) (e : String)
    (hdbscanFit : HdbscanFit) (request_id : Option String)
    (h3 : 3 ≤ (get_embeddings_by_user store (some uid)).1.length) :
    TCPServer.process_request
        [(TCPAction.cluster_documents,
          handle_cluster_documents (fun _ => Except.error e) hdbscanFit store)]
        { action := TCPAction.cluster_documents,
          data := [("user_id", Json.str uid)], request_id := request_id } =
      TCPResponse.success (failDict e) request_id ∧
    (TCPResponse.success (failDict e) request_id).status = "success" ∧
    lookupKey (failDict e) "success" = some (Json.bool false) ∧
    lookupKey (failDict e) "error" = some (Json.str e) := by
  have h0 : ¬ ((get_embeddings_by_user store (some uid)).1.length = 0) := by
    omega
  have hlt : ¬ ((get_embeddings_by_user store (some uid)).1.length < 3) := by
    omega
  have hexec : ClusterDocumentsUseCase.execute (fun _ => Except.error e)
      hdbscanFit store (some uid) none false = (failDict e, store) := by
    simp [ClusterDocumentsUseCase.execute, h0, hlt, clusterPipelineTail]
  refine ⟨?_, rfl, rfl, rfl⟩
  simp [TCPServer.process_request, registryLookup, handle_cluster_documents,
    getStrField, getDocIdsField, lookupKey, jsonTruthy, hexec]

theorem C8_nested_error_envelope_witness :
    TCPServer.process_request
        [(TCPAction.cluster_documents,
          handle_cluster_documents (fun _ => Except.error "boom")
            (fun _ => Except.ok ([], [])) threeDocStore)]
        { action := TCPAction.cluster_documents,
          data := [("user_id", Json.str "u")], request_id := some "r1" } =
      TCPResponse.success (failDict "boom") (some "r1") ∧
    (TCPResponse.success (failDict "boom") (some "r1")).status = "success" ∧
    lookupKey (failDict "boom") "success" = some (Json.bool false) ∧
    lookupKey (failDict "boom") "error" = some (Json.str "boom") :=
  C8_nested_error_envelope threeDocStore "u" "boom"
    (fun _ => Except.ok ([], [])) (some "r1") (by decide)

/-- A row of the result set of `PersistenceAdapter.get_visualization`: the
stored point joined (LEFT JOIN) with the owner's cluster label and the
document's filename, `none` standing for SQL `NULL`. -/
structure VizPoint where
  document_id : String
  x : ℚ
  y : ℚ
  cluster_id : ℤ
  cluster_label : Option String
  filename : Option String
deriving DecidableEq, Repr

/-- Model of `PersistenceAdapter.get_visualization`: the user's stored
points in table order, each joined with the first matching cluster label
and filename. -/
def get_visualization (store : Store) (user_id : Option String) :
    List VizPoint :=
  (store.ml_visualizations.filter (fun v => sqlEq v.user_id user_id)).map
    (fun v =>
      { document_id := v.document_id, x := v.x, y := v.y,
        cluster_id := v.cluster_id
        cluster_label := (store.ml_clusters.find? (fun c =>
          c.cluster_id = v.cluster_id && sqlEq c.user_id v.user_id)).map
          (fun c => c.label)
        filename := (store.documents.find? (fun d =>
          d.id = v.document_id)).map (fun d => d.filename) })

/-- Stable ascending insertion by `cluster_id`. -/
def insertByClusterId (c : ClusterRow) :
    List ClusterRow → List ClusterRow
  | [] => [c]
  | d :: ds =>
      if d.cluster_id ≤ c.cluster_id then d :: insertByClusterId c ds
      else c :: d :: ds

/-- Modelled from the spec: `get_clusters_by_user` reads the
`v_cluster_summary` database view, whose definition is not among the
sources; per the spec's Result Store boundary it exposes the owner's
persisted clusters, here ordered by `cluster_id` as the adapter's query
does. The pipeline only consumes its emptiness. -/
def get_clusters_by_user (store : Store) (user_id : Option String) :
    List ClusterRow :=
  (store.ml_clusters.filter (fun r => sqlEq r.user_id user_id)).foldl
    (fun acc c => insertByClusterId c acc) []

/-- Model of `PersistenceAdapter.get_document_cluster_labels` collapsed with
the dictionary default: the numeric cluster id of the document's assignment
row joined with the owner's cluster row, `-1` when any link is missing. -/
def get_document_cluster_labels (store : Store) (user_id : Option String)
    (doc : String) : ℤ :=
  match store.ml_document_clusters.find? (fun dc => dc.document_id = doc) with
  | some dc =>
    match dc.cluster_pk with
    | some pk =>
      match store.ml_clusters.find? (fun c =>
          c.pk = pk && sqlEq c.user_id user_id) with
      | some c => c.cluster_id
      | none => -1
    | none => -1
  | none => -1

/-- One upsert of `save_visualization`
(`ON CONFLICT (user_id, document_id) DO UPDATE`). -/
def upsertVizRow (tbl : List VizRow) (row : VizRow) : List VizRow :=
  if tbl.any (fun v => sqlEq v.user_id row.user_id &&
      v.document_id = row.document_id) then
    tbl.map (fun v =>
      if sqlEq v.user_id row.user_id && v.document_id = row.document_id then
        { v with x := row.x, y := row.y, cluster_id := row.cluster_id }
      else v)
  else tbl ++ [row]

/-- Model of `PersistenceAdapter.save_visualization`: upsert one point per
document, reading coordinates and labels positionally (UMAP's contract
keeps the row count equal to the document count). -/
def save_visualization (store : Store) (user_id : Option String)
    (document_ids : List String) (coordinates_2d : List (List ℚ))
    (labels : List ℤ) : Store :=
  { store with ml_visualizations :=
      (document_ids.zip (coordinates_2d.zip labels)).foldl (fun tbl p =>
        upsertVizRow tbl
          { user_id := user_id, document_id := p.1,
            x := p.2.1.getD 0 0, y := p.2.1.getD 1 0,
            cluster_id := p.2.2 }) store.ml_visualizations }

/-- The cluster labels attached to the visualization points (step 3 of
`UpdateVisualizationUseCase.execute`): current assignments when the owner
has clusters, `-1` everywhere otherwise. -/
def vizClusterLabels (store : Store) (user_id : Option String)
    (doc_ids : List String) : List ℤ :=
  if !(get_clusters_by_user store user_id).isEmpty then
    doc_ids.map (fun d => get_document_cluster_labels store user_id d)
  else doc_ids.map (fun _ => (-1 : ℤ))

/-- Model of `UpdateVisualizationUseCase._format_response`: SQL `NULL`
labels/filenames pass through as JSON `null` (the row dictionaries always
carry the keys, so the Python `.get` defaults never fire). -/
def formatVizResponse (user_id : Option String) (viz_data : List VizPoint) :
    List (String × Json) :=
  [("success", Json.bool true),
   ("user_id", optStrJson user_id),
   ("total_points", Json.num viz_data.length),
   ("points", Json.arr (viz_data.map (fun v =>
      Json.obj [("document_id", Json.str v.document_id),
                ("x", Json.num v.x), ("y", Json.num v.y),
                ("cluster_id", Json.num v.cluster_id),
                ("cluster_label", optStrJson v.cluster_label),
                ("filename", optStrJson v.filename)])))]

/-- Model of `UpdateVisualizationUseCase.execute`
(`update_visualization.py`): return the stored visualization unchanged
unless forced or absent; otherwise reduce the owner's embeddings to 2-D,
attach current cluster ids, persist the point set and return it. -/
def UpdateVisualizationUseCase.execute (umapFitViz : UmapFit) (store : Store)
    (user_id : Option String) (force_update : Bool) :
    List (String × Json) × Store :=
  if !force_update && !(get_visualization store user_id).isEmpty then
    (formatVizResponse user_id (get_visualization store user_id), store)
  else
    let de := get_embeddings_by_user store user_id
    if de.1.length = 0 then (failDict (noDocumentsMsg user_id), store)
    else
      match umapFitViz de.2 with
      | .error e => (failDict e, store)
      | .ok coordinates_2d =>
        let store1 := save_visualization store user_id de.1 coordinates_2d
          (vizClusterLabels store user_id de.1)
        (formatVizResponse user_id (get_visualization store1 user_id), store1)

/-- Model of `handle_get_visualization` (`handlers.py`): the same use case
as `update_visualization`, invoked with `force_update=False`; the updated
store is kept so the handler's write effect is observable. -/
def handle_get_visualization (umapFitViz : UmapFit) (store : Store)
    (data : List (String × Json)) : List (String × Json) × Store :=
  UpdateVisualizationUseCase.execute umapFitViz store
    (getStrField data "user_id") false

/-- C9 counterexample: for an owner with no persisted visualization and no
embeddings, `get_visualization` returns the "no documents" failure and
leaves the store untouched — so the call neither runs the reduction
pipeline nor writes a point set, although no visualization exists, and
"leaves stored state unchanged only when a persisted visualization already
exists" fails. -/
theorem C9_counterexample :
    get_visualization emptyStore (some "u") = [] ∧
    handle_get_visualization (fun v => Except.ok v) emptyStore
        [("user_id", Json.str "u")] =
      (failDict (noDocumentsMsg (some "u")), emptyStore) :=
  ⟨rfl, rfl⟩

lemma user_id_upsertVizRow_update (v row : VizRow) :
    (if sqlEq v.user_id row.user_id && v.document_id = row.document_id then
      { v with x := row.x, y := row.y, cluster_id := row.cluster_id }
    else v).user_id = v.user_id := by
  split <;> rfl

lemma exists_user_upsertVizRow (tbl : List VizRow) (row : VizRow)
    (u : Option String) (h : ∃ v ∈ tbl, sqlEq v.user_id u = true) :
    ∃ v ∈ upsertVizRow tbl row, sqlEq v.user_id u = true := by
  obtain ⟨v, hv, hvu⟩ := h
  unfold upsertVizRow
  split
  · refine ⟨_, List.mem_map_of_mem _ hv, ?_⟩
    rw [user_id_upsertVizRow_update]
    exact hvu
  · exact ⟨v, List.mem_append_left _ hv, hvu⟩

lemma exists_user_upsertVizRow_self (tbl : List VizRow) (row : VizRow)
    (u : String) (hr : row.user_id = some u) :
    ∃ v ∈ upsertVizRow tbl row, sqlEq v.user_id (some u) = true := by
  unfold upsertVizRow
  split
  · rename_i hcond
    rw [List.any_eq_true] at hcond
    obtain ⟨v, hv, hmatch⟩ := hcond
    rw [Bool.and_eq_true] at hmatch
    refine ⟨_, List.mem_map_of_mem _ hv, ?_⟩
    rw [user_id_upsertVizRow_update]
    rw [hr] at hmatch
    exact hmatch.1
  · refine ⟨row, List.mem_append_right _ (List.mem_singleton.mpr rfl), ?_⟩
    rw [hr]
    simp [sqlEq]

lemma exists_user_save_viz_fold (u : String)
    (ps : List (String × (List ℚ × ℤ))) (tbl : List VizRow)
    (h : (∃ v ∈ tbl, sqlEq v.user_id (some u) = true) ∨ ps ≠ []) :
    ∃ v ∈ ps.foldl (fun t p => upsertVizRow t
        { user_id := some u, document_id := p.1, x := p.2.1.getD 0 0,
          y := p.2.1.getD 1 0, cluster_id := p.2.2 }) tbl,
      sqlEq v.user_id (some u) = true := by
  induction ps generalizing tbl with
  | nil =>
      rcases h with h | h
      · exact h
      · exact absurd rfl h
  | cons p ps ih =>
      exact ih _ (Or.inl (exists_user_upsertVizRow_self tbl _ u rfl))

lemma get_visualization_ne_nil_of_exists (store : Store) (u : String)
    (h : ∃ v ∈ store.ml_visualizations, sqlEq v.user_id (some u) = true) :
    get_visualization store (some u) ≠ [] := by
  intro hnil
  obtain ⟨v, hv, hvu⟩ := h
  unfold get_visualization at hnil
  rw [List.map_eq_nil_iff, List.filter_eq_nil_iff] at hnil
  exact absurd hvu (by simpa using hnil v hv)

lemma vizClusterLabels_length (store : Store) (user_id : Option String)
    (doc_ids : List String) :
    (vizClusterLabels store user_id doc_ids).length = doc_ids.length := by
  unfold vizClusterLabels
  split <;> simp

/-- C9 (amended): `get_visualization`'s handler runs the update use case
with `force_update=False`; when no visualization is persisted and the owner
has at least one embedding and the 2-D reduction succeeds (with one
coordinate row per document), the call persists a fresh point set for the
owner before returning; when a persisted visualization exists the call
returns it with the store unchanged. (With zero embeddings the call fails
without writing — the counterexample's case.) -/
theorem C9_get_visualization_amended :
    (∀ (umapFitViz : UmapFit) (store : Store) (data : List (String × Json)),
      handle_get_visualization umapFitViz store data =
        UpdateVisualizationUseCase.execute umapFitViz store
          (getStrField data "user_id") false) ∧
    (∀ (umapFitViz : UmapFit) (store : Store) (u : String)
        (coords : List (List ℚ)),
      get_visualization store (some u) = [] →
      (get_embeddings_by_user store (some u)).1 ≠ [] →
      umapFitViz (get_embeddings_by_user store (some u)).2 =
        Except.ok coords →
      coords.length = (get_embeddings_by_user store (some u)).1.length →
      (UpdateVisualizationUseCase.execute umapFitViz store (some u)
          false).2 =
        save_visualization store (some u)
          (get_embeddings_by_user store (some u)).1 coords
          (vizClusterLabels store (some u)
            (get_embeddings_by_user store (some u)).1) ∧
      get_visualization
        (UpdateVisualizationUseCase.execute umapFitViz store (some u)
          false).2 (some u) ≠ []) ∧
    (∀ (umapFitViz : UmapFit) (store : Store) (user_id : Option String),
      get_visualization store user_id ≠ [] →
      UpdateVisualizationUseCase.execute umapFitViz store user_id false =
        (formatVizResponse user_id (get_visualization store user_id),
          store)) := by
  refine ⟨fun _ _ _ => rfl, ?_, ?_⟩
  · intro umapFitViz store u coords hviz hne humap hlen
    have hnz : ¬ ((get_embeddings_by_user store (some u)).1.length = 0) := by
      intro h
      exact hne (List.length_eq_zero.mp h)
    have hstep : (UpdateVisualizationUseCase.execute umapFitViz store (some u)
        false).2 =
        save_visualization store (some u)
          (get_embeddings_by_user store (some u)).1 coords
          (vizClusterLabels store (some u)
            (get_embeddings_by_user store (some u)).1) := by
      simp [UpdateVisualizationUseCase.execute, hviz, hnz, humap]
    refine ⟨hstep, ?_⟩
    rw [hstep]
    apply get_visualization_ne_nil_of_exists
    unfold save_visualization
    apply exists_user_save_viz_fold
    right
    intro hzip
    have := congrArg List.length hzip
    rw [List.length_zip, List.length_zip, vizClusterLabels_length, hlen] at this
    simp only [List.length_nil] at this
    omega
  · intro umapFitViz store user_id h
    have hne : (get_visualization store user_id).isEmpty = false := by
      cases hE : (get_visualization store user_id).isEmpty
      · rfl
      · exact absurd (List.isEmpty_iff.mp hE) h
    simp [UpdateVisualizationUseCase.execute, hne]

/-- A store in which user `"u"` owns one embedding and nothing else. -/
def oneDocStore : Store :=
  { emptyStore with lpe :=
      [{ id := 1, collection := "u", document := some "a",
         embedding := [1, 2] }] }

/-- A store holding one persisted visualization point for user `"u"`. -/
def vizStoreC9 : Store :=
  { emptyStore with ml_visualizations :=
      [{ user_id := some "u", document_id := "a", x := 1, y := 2,
         cluster_id := -1 }] }

theorem C9_get_visualization_amended_witness :
    (handle_get_visualization (fun _ => Except.ok []) emptyStore [] =
      UpdateVisualizationUseCase.execute (fun _ => Except.ok []) emptyStore
        none false) ∧
    ((UpdateVisualizationUseCase.execute (fun _ => Except.ok [[3, 4]])
        oneDocStore (some "u") false).2 =
      save_visualization oneDocStore (some "u")
        (get_embeddings_by_user oneDocStore (some "u")).1 [[3, 4]]
        (vizClusterLabels oneDocStore (some "u")
          (get_embeddings_by_user oneDocStore (some "u")).1) ∧
     get_visualization
       (UpdateVisualizationUseCase.execute (fun _ => Except.ok [[3, 4]])
         oneDocStore (some "u") false).2 (some "u") ≠ []) ∧
    (UpdateVisualizationUseCase.execute (fun _ => Except.ok []) vizStoreC9
        (some "u") false =
      (formatVizResponse (some "u") (get_visualization vizStoreC9 (some "u")),
        vizStoreC9)) := by
  refine ⟨C9_get_visualization_amended.1 _ _ _, ?_, ?_⟩
  · exact C9_get_visualization_amended.2.1 (fun _ => Except.ok [[3, 4]])
      oneDocStore "u" [[3, 4]] rfl (by decide) rfl (by decide)
  · exact C9_get_visualization_amended.2.2 (fun _ => Except.ok [])
      vizStoreC9 (some "u") (by decide)

/-- The numeric cluster ids of an owner's persisted `ml_clusters` rows, in
table order. -/
def ownerClusterIds (store : Store) (user_id : Option String) : List ℤ :=
  (store.ml_clusters.filter (fun r => sqlEq r.user_id user_id)).map
    (fun r => r.cluster_id)

/-- The same projection on a bare table. -/
def tblOwnerIds (tbl : List ClusterRow) (user_id : Option String) : List ℤ :=
  (tbl.filter (fun r => sqlEq r.user_id user_id)).map (fun r => r.cluster_id)

/-- A store where owner `"A"` has three embeddings and two prior clusters
(ids 0 and 1) from an earlier full run. -/
def storeC2 : Store :=
  { emptyStore with
      lpe :=
        [{ id := 1, collection := "A", document := some "a", embedding := [1] },
         { id := 2, collection := "A", document := some "b", embedding := [2] },
         { id := 3, collection := "A", document := some "c", embedding := [3] }],
      ml_clusters :=
        [{ pk := 1, user_id := some "A", cluster_id := 0, label := "x",
           size := 1, keywords := [], centroid := [] },
         { pk := 2, user_id := some "A", cluster_id := 1, label := "y",
           size := 1, keywords := [], centroid := [] }],
      cluster_seq := 3 }

/-- C2 counterexample: a full (no-subset) run for owner `"A"` that
completes successfully and produces the single non-outlier cluster `{0}`,
executed with `force_recluster = False`, leaves the owner's persisted
cluster-id set as `[0, 1]` — the stale cluster 1 survives because
`save_clusters` only deletes prior rows when `delete_existing =
force_recluster` is true. The persisted set does not equal the run's set. -/
theorem C2_counterexample :
    ownerClusterIds (ClusterDocumentsUseCase.execute (fun v => Except.ok v)
        (fun _ => Except.ok ([0, 0, 0], [1, 1, 1])) storeC2 (some "A") none
        false).2 (some "A") = [0, 1] ∧
    nonNegUnique [0, 0, 0] = [0] ∧
    ([0, 1] : List ℤ) ≠ [0] ∧
    lookupKey (ClusterDocumentsUseCase.execute (fun v => Except.ok v)
        (fun _ => Except.ok ([0, 0, 0], [1, 1, 1])) storeC2 (some "A") none
        false).1 "success" = some (Json.bool true) :=
  ⟨by decide, by decide, by decide, rfl⟩

/-- A store where owner `"A"` has three embeddings and one prior cluster
with numeric id 0, while another owner `"B"` also has a cluster with
numeric id 0 stored after it. -/
def storeC3 : Store :=
  { emptyStore with
      lpe :=
        [{ id := 1, collection := "A", document := some "a", embedding := [1] },
         { id := 2, collection := "A", document := some "b", embedding := [2] },
         { id := 3, collection := "A", document := some "c", embedding := [3] }],
      ml_clusters :=
        [{ pk := 1, user_id := some "A", cluster_id := 0, label := "x",
           size := 1, keywords := [], centroid := [] },
         { pk := 2, user_id := some "B", cluster_id := 0, label := "y",
           size := 1, keywords := [], centroid := [] }],
      cluster_seq := 3 }

/-- C3: the owner-scope invariant the spec states is broken by the code —
`save_document_clusters` resolves numeric labels through `SELECT id,
cluster_id FROM ml_clusters` with no `user_id` filter, so a run for owner
`"A"` whose documents all land in cluster 0 writes assignment rows that
reference `ml_clusters.id = 2`, which belongs to owner `"B"`. (Owner
`"A"`'s own cluster-0 row, `id = 1`, is updated in place earlier in the
same run, so the unscoped scan's last id-0 row is `"B"`'s.) -/
theorem C3_cross_owner_reference :
    (ClusterDocumentsUseCase.execute (fun v => Except.ok v)
        (fun _ => Except.ok ([0, 0, 0], [1, 1, 1])) storeC3 (some "A") none
        false).2.ml_document_clusters =
      [{ document_id := "a", cluster_pk := some 2, probability := some 1,
         is_outlier := false },
       { document_id := "b", cluster_pk := some 2, probability := some 1,
         is_outlier := false },
       { document_id := "c", cluster_pk := some 2, probability := some 1,
         is_outlier := false }] ∧
    (storeC3.ml_clusters.find? (fun c => c.pk = 2)).map
      (fun c => c.user_id) = some (some "B") ∧
    some (some "B") ≠ some (some "A") :=
  ⟨by decide, by decide, by decide⟩

lemma clusterRow_update_user_id (r c : ClusterRow) (u : Option String) :
    (if sqlEq r.user_id u && r.cluster_id = c.cluster_id then
      { r with label := c.label, size := c.size, keywords := c.keywords,
               centroid := c.centroid }
    else r).user_id = r.user_id := by
  split <;> rfl

lemma clusterRow_update_cluster_id (r c : ClusterRow) (u : Option String) :
    (if sqlEq r.user_id u && r.cluster_id = c.cluster_id then
      { r with label := c.label, size := c.size, keywords := c.keywords,
               centroid := c.centroid }
    else r).cluster_id = r.cluster_id := by
  split <;> rfl

lemma tblOwnerIds_map_invariant (tbl : List ClusterRow)
    (f : ClusterRow → ClusterRow) (u : Option String)
    (hu : ∀ r, (f r).user_id = r.user_id)
    (hc : ∀ r, (f r).cluster_id = r.cluster_id) :
    tblOwnerIds (tbl.map f) u = tblOwnerIds tbl u := by
  induction tbl with
  | nil => rfl
  | cons a l ih =>
      unfold tblOwnerIds at *
      simp only [List.map_cons, List.filter_cons, hu a]
      by_cases h : sqlEq a.user_id u = true
      · simp [h, hc a, ih]
      · simp only [h, Bool.false_eq_true, if_false, ih]

lemma mem_tblOwnerIds_upsert (tbl : List ClusterRow) (seq : ℕ) (u : String)
    (c : ClusterRow) (cid : ℤ) :
    cid ∈ tblOwnerIds (upsertClusterRow tbl seq (some u) c).1 (some u) ↔
      (cid ∈ tblOwnerIds tbl (some u) ∨ cid = c.cluster_id) := by
  unfold upsertClusterRow
  split
  · rename_i hcond
    rw [List.any_eq_true] at hcond
    obtain ⟨r, hr, hmatch⟩ := hcond
    rw [Bool.and_eq_true, decide_eq_true_eq] at hmatch
    have hmem : c.cluster_id ∈ tblOwnerIds tbl (some u) := by
      unfold tblOwnerIds
      exact hmatch.2 ▸ List.mem_map_of_mem _
        (List.mem_filter.mpr ⟨hr, hmatch.1⟩)
    rw [tblOwnerIds_map_invariant tbl _ (some u)
      (fun r => clusterRow_update_user_id r c (some u))
      (fun r => clusterRow_update_cluster_id r c (some u))]
    constructor
    · exact Or.inl
    · rintro (h | h)
      · exact h
      · exact h ▸ hmem
  · unfold tblOwnerIds
    rw [List.filter_append, List.map_append]
    have hone : ({ c with pk := seq, user_id := some u } :: []).filter
        (fun r => sqlEq r.user_id (some u)) =
        [{ c with pk := seq, user_id := some u }] := by
      simp [List.filter, sqlEq]
    rw [hone]
    simp [tblOwnerIds]

lemma mem_tblOwnerIds_fold (cs : List ClusterRow) (u : String) (cid : ℤ) :
    ∀ (tbl : List ClusterRow) (seq : ℕ),
    cid ∈ tblOwnerIds
        ((cs.foldl (fun acc c => upsertClusterRow acc.1 acc.2 (some u) c)
          (tbl, seq)).1) (some u) ↔
      (cid ∈ tblOwnerIds tbl (some u) ∨
        cid ∈ cs.map (fun c => c.cluster_id)) := by
  induction cs with
  | nil => simp
  | cons c cs ih =>
      intro tbl seq
      simp only [List.foldl_cons]
      rw [ih, mem_tblOwnerIds_upsert]
      simp only [List.map_cons, List.mem_cons]
      tauto

lemma tblOwnerIds_delete (tbl : List ClusterRow) (u : Option String) :
    tblOwnerIds (tbl.filter (fun r => !sqlEq r.user_id u)) u = [] := by
  induction tbl with
  | nil => rfl
  | cons a l ih =>
      unfold tblOwnerIds at *
      rw [List.filter_cons]
      by_cases h : sqlEq a.user_id u = true
      · simp [h, ih]
      · rw [Bool.not_eq_true] at h
        simp [h, ih]

lemma save_document_clusters_ml_clusters (store : Store)
    (document_ids : List String) (labels : List ℤ)
    (probabilities : Option (List ℚ)) :
    (save_document_clusters store document_ids labels
      probabilities).ml_clusters = store.ml_clusters := rfl

lemma ownerIds_save_clusters_true (store : Store) (u : String)
    (cs : List ClusterRow) (cid : ℤ) :
    cid ∈ tblOwnerIds (save_clusters store (some u) cs true).ml_clusters
        (some u) ↔
      cid ∈ cs.map (fun c => c.cluster_id) := by
  show cid ∈ tblOwnerIds
    ((cs.foldl (fun acc c => upsertClusterRow acc.1 acc.2 (some u) c)
      (if (true : Bool) = true then
        store.ml_clusters.filter (fun r => !sqlEq r.user_id (some u))
      else store.ml_clusters, store.cluster_seq)).1) (some u) ↔ _
  rw [if_pos rfl, mem_tblOwnerIds_fold, tblOwnerIds_delete]
  simp

lemma ownerIds_save_clusters_false (store : Store) (u : String)
    (cs : List ClusterRow) (cid : ℤ) :
    cid ∈ tblOwnerIds (save_clusters store (some u) cs false).ml_clusters
        (some u) ↔
      (cid ∈ tblOwnerIds store.ml_clusters (some u) ∨
        cid ∈ cs.map (fun c => c.cluster_id)) := by
  show cid ∈ tblOwnerIds
    ((cs.foldl (fun acc c => upsertClusterRow acc.1 acc.2 (some u) c)
      (if (false : Bool) = true then
        store.ml_clusters.filter (fun r => !sqlEq r.user_id (some u))
      else store.ml_clusters, store.cluster_seq)).1) (some u) ↔ _
  rw [if_neg (by simp), mem_tblOwnerIds_fold]

/-- C2 (amended): for a successful full (no document-subset) run, the
owner's persisted cluster-id set afterwards equals exactly the run's
non-outlier label set when `force_recluster` is true; when it is false the
prior rows are not deleted and the run's clusters are merely upserted, so
the persisted set is the union of the prior set and the run's set (stale
ids survive, as the counterexample shows). -/
theorem C2_cluster_replacement_amended (umapFit : UmapFit)
    (hdbscanFit : HdbscanFit) (store : Store) (u : String)
    (reduced : List (List ℚ)) (labels : List ℤ) (probs : List ℚ)
    (h3 : 3 ≤ (get_embeddings_by_user store (some u)).1.length)
    (humap : umapFit (get_embeddings_by_user store (some u)).2 =
      Except.ok reduced)
    (hhdb : hdbscanFit reduced = Except.ok (labels, probs)) :
    (∀ cid, cid ∈ ownerClusterIds
        (ClusterDocumentsUseCase.execute umapFit hdbscanFit store (some u)
          none true).2 (some u) ↔
      cid ∈ nonNegUnique labels) ∧
    (∀ cid, cid ∈ ownerClusterIds
        (ClusterDocumentsUseCase.execute umapFit hdbscanFit store (some u)
          none false).2 (some u) ↔
      (cid ∈ ownerClusterIds store (some u) ∨
        cid ∈ nonNegUnique labels)) := by
  have h0 : ¬ ((get_embeddings_by_user store (some u)).1.length = 0) := by
    omega
  have hlt : ¬ ((get_embeddings_by_user store (some u)).1.length < 3) := by
    omega
  have hexec : ∀ force : Bool,
      (ClusterDocumentsUseCase.execute umapFit hdbscanFit store (some u)
        none force).2.ml_clusters =
      (save_clusters store (some u)
        (runClusterData store (some u)
          (get_embeddings_by_user store (some u)).1 labels reduced)
        force).ml_clusters := by
    intro force
    simp [ClusterDocumentsUseCase.execute, h0, hlt, applySubsetFilter,
      clusterPipelineTail, humap, hhdb, save_document_clusters_ml_clusters]
  have hids : (runClusterData store (some u)
      (get_embeddings_by_user store (some u)).1 labels reduced).map
      (fun c => c.cluster_id) = nonNegUnique labels := by
    have h1 : (runClusterData store (some u)
        (get_embeddings_by_user store (some u)).1 labels reduced).map
        (fun c => c.cluster_id) =
        List.map (fun cid : ℤ => cid) (nonNegUnique labels) := by
      unfold runClusterData
      rw [List.map_map]
      rfl
    rw [h1, List.map_id']
  constructor
  · intro cid
    have h1 : ownerClusterIds (ClusterDocumentsUseCase.execute umapFit
        hdbscanFit store (some u) none true).2 (some u) =
        tblOwnerIds (ClusterDocumentsUseCase.execute umapFit hdbscanFit store
          (some u) none true).2.ml_clusters (some u) := rfl
    rw [h1, hexec true, ownerIds_save_clusters_true, hids]
  · intro cid
    have h1 : ownerClusterIds (ClusterDocumentsUseCase.execute umapFit
        hdbscanFit store (some u) none false).2 (some u) =
        tblOwnerIds (ClusterDocumentsUseCase.execute umapFit hdbscanFit store
          (some u) none false).2.ml_clusters (some u) := rfl
    rw [h1, hexec false, ownerIds_save_clusters_false, hids]
    rfl

theorem C2_cluster_replacement_amended_witness :
    (∀ cid, cid ∈ ownerClusterIds
        (ClusterDocumentsUseCase.execute (fun v => Except.ok v)
          (fun _ => Except.ok ([0, 0, 0], [1, 1, 1])) storeC2 (some "A")
          none true).2 (some "A") ↔
      cid ∈ nonNegUnique [0, 0, 0]) ∧
    (∀ cid, cid ∈ ownerClusterIds
        (ClusterDocumentsUseCase.execute (fun v => Except.ok v)
          (fun _ => Except.ok ([0, 0, 0], [1, 1, 1])) storeC2 (some "A")
          none false).2 (some "A") ↔
      (cid ∈ ownerClusterIds storeC2 (some "A") ∨
        cid ∈ nonNegUnique [0, 0, 0])) :=
  C2_cluster_replacement_amended (fun v => Except.ok v)
    (fun _ => Except.ok ([0, 0, 0], [1, 1, 1])) storeC2 "A"
    [[1], [2], [3]] [0, 0, 0] [1, 1, 1] (by decide) rfl rfl

/-- The dot product of two rational vectors. -/
def dotQ (a b : List ℚ) : ℚ := (List.zipWith (· * ·) a b).sum

/-- Cosine distance specialized to unit-norm vectors, where pgvector's
`<=>` operator equals `1 − dot`. The distance operator itself lives in the
external pgvector extension, so the embedded queries take it as a
parameter; this instantiation is exact on the unit vectors used in the
concrete stores below. -/
def cosDistUnit (a b : List ℚ) : ℚ := 1 - dotQ a b

/-- Model of the base-row query of
`RecommendSimilarUseCase._calculate_similarity` (`WHERE document = %s
LIMIT 1`, no ORDER BY: the first row in table order). -/
def findBaseRow (store : Store) (document_id : String) : Option EmbRow :=
  store.lpe.find? (fun r => r.document = some document_id)

/-- The row `DISTINCT ON (lpe.document) ... ORDER BY lpe.document,
lpe.embedding <=> base` keeps for one document value: the row with minimal
distance to the base embedding (first in table order on ties). -/
def minDistRowFor (dist : List ℚ → List ℚ → ℚ) (base : List ℚ)
    (rows : List EmbRow) (d : String) : Option EmbRow :=
  rows.foldl (fun acc r =>
    if r.document = some d then
      match acc with
      | none => some r
      | some b =>
          if dist r.embedding base < dist b.embedding base then some r
          else some b
    else acc) none

/-- One recommendation produced by `_calculate_similarity` (the Python
`r["filename"] or "Sin nombre"` falls back on both SQL `NULL` and the empty
string). -/
structure Recommendation where
  document_id : String
  filename : String
  similarity_score : ℚ
deriving DecidableEq, Repr

/-- Model of `RecommendSimilarUseCase._calculate_similarity`
(`recommend_similar.py`): candidates are the non-null documents of the base
row's collection other than the base document; `DISTINCT ON (lpe.document)`
keeps each document's closest row; the result set is ordered by the leading
`ORDER BY lpe.document` — ascending document id, not similarity — and
`LIMIT top_k` truncates that order. The `user_id` parameter of the Python
method is unused by its SQL. -/
def RecommendSimilarUseCase.calculate_similarity
    (dist : List ℚ → List ℚ → ℚ) (store : Store) (document_id : String)
    (top_k : ℕ) : List Recommendation :=
  match findBaseRow store document_id with
  | none => []
  | some base =>
    let cands := store.lpe.filter (fun r =>
      decide (r.collection = base.collection) &&
      !decide (r.document = some document_id) && r.document.isSome)
    let docs := distinctSorted (cands.filterMap (fun r => r.document))
    let best := docs.filterMap (fun d =>
      (minDistRowFor dist base.embedding cands d).map (fun r => (d, r)))
    (best.take top_k).map (fun p =>
      { document_id := p.1
        filename :=
          match store.documents.find? (fun dr => dr.id = p.1) with
          | some dr =>
              if dr.filename.isEmpty then "Sin nombre" else dr.filename
          | none => "Sin nombre"
        similarity_score := 1 - dist p.2.embedding base.embedding })

/-- A row of the cache-read result set of
`PersistenceAdapter.get_recommendations`. -/
structure CachedRec where
  document_id : String
  similarity_score : ℚ
  rank : ℕ
  filename : Option String
deriving DecidableEq, Repr

/-- Stable ascending insertion by rank (`ORDER BY r.rank`). -/
def insertByRank (r : CachedRec) : List CachedRec → List CachedRec
  | [] => [r]
  | s :: ss =>
      if s.rank ≤ r.rank then s :: insertByRank r ss else r :: s :: ss

/-- Model of `PersistenceAdapter.get_recommendations`: the cached entries
for a base document, joined with filenames, ordered by rank and truncated
to `top_k`. -/
def get_recommendations (store : Store) (document_id : String)
    (top_k : ℕ) : List CachedRec :=
  (((store.ml_recommendations.filter
      (fun r => r.document_id = document_id)).map (fun r =>
    ({ document_id := r.recommended_document_id,
       similarity_score := r.similarity_score, rank := r.rank,
       filename := (store.documents.find? (fun d =>
         d.id = r.recommended_document_id)).map (fun d => d.filename) }
      : CachedRec))).foldl (fun acc r => insertByRank r acc) []).take top_k

/-- Model of `PersistenceAdapter.save_recommendations`: delete the base
document's cached entries, then insert the new ranking with 1-based ranks
in list order. -/
def save_recommendations (store : Store) (document_id : String)
    (recommendations : List Recommendation) : Store :=
  { store with ml_recommendations :=
      (store.ml_recommendations.filter
        (fun r => !decide (r.document_id = document_id))) ++
      recommendations.enum.map (fun p =>
        { document_id := document_id,
          recommended_document_id := p.2.document_id,
          similarity_score := p.2.similarity_score, rank := p.1 + 1 }) }

/-- The success dictionary of the cache-hit path of
`RecommendSimilarUseCase.execute`. -/
def recommendCachedDict (document_id : String) (cached : List CachedRec) :
    List (String × Json) :=
  [("success", Json.bool true),
   ("document_id", Json.str document_id),
   ("recommendations", Json.arr (cached.map (fun r =>
      Json.obj [("document_id", Json.str r.document_id),
                ("filename", optStrJson r.filename),
                ("similarity_score", Json.num (pyRound4 r.similarity_score)),
                ("rank", Json.num r.rank)])))]

/-- The success dictionary of the freshly computed path (no `rank` key). -/
def recommendFreshDict (document_id : String)
    (recs : List Recommendation) : List (String × Json) :=
  [("success", Json.bool true),
   ("document_id", Json.str document_id),
   ("recommendations", Json.arr (recs.map (fun r =>
      Json.obj [("document_id", Json.str r.document_id),
                ("filename", Json.str r.filename),
                ("similarity_score",
                  Json.num (pyRound4 r.similarity_score))])))]

/-- Model of `RecommendSimilarUseCase.execute`: serve the cache when
non-empty; otherwise compute the ranking, fail when it is empty, and
persist it (full replace for the base document) before returning. -/
def RecommendSimilarUseCase.execute (dist : List ℚ → List ℚ → ℚ)
    (store : Store) (document_id : String) (top_k : ℕ)
    (user_id : Option String) : List (String × Json) × Store :=
  let cached := get_recommendations store document_id top_k
  if !cached.isEmpty then (recommendCachedDict document_id cached, store)
  else
    let recommendations := RecommendSimilarUseCase.calculate_similarity dist
      store document_id top_k
    if recommendations.isEmpty then
      (failDict "No se encontraron documentos similares", store)
    else
      (recommendFreshDict document_id recommendations,
       save_recommendations store document_id recommendations)

/-- Keep each string's first occurrence, dropping later duplicates. -/
def dedupFirst (l : List String) : List String :=
  l.foldl (fun acc s => if acc.contains s then acc else acc ++ [s]) []

/-- The best (lowest-distance) similarity of one candidate document. -/
def bestSimilarityFor (dist : List ℚ → List ℚ → ℚ) (base : List ℚ)
    (rows : List EmbRow) (d : String) : ℚ :=
  match minDistRowFor dist base rows d with
  | some r => 1 - dist r.embedding base
  | none => 0

/-- Insertion into a list sorted by similarity descending with ties broken
by ascending storage index. -/
def insertBySimDesc (p : ℕ × String × ℚ) :
    List (ℕ × String × ℚ) → List (ℕ × String × ℚ)
  | [] => [p]
  | q :: qs =>
      if decide (p.2.2 < q.2.2) ||
          (decide (q.2.2 = p.2.2) && decide (q.1 < p.1)) then
        q :: insertBySimDesc p qs
      else p :: q :: qs

/-- The ranking claim C1 and the spec describe for `recommend_similar`,
defined from the spec's words for comparison with the code's
`calculate_similarity`: every other document of the base document's
collection (null documents excluded), scored by cosine similarity
(`1 − cosine distance`) of its closest row, ordered by similarity
descending with ties broken by natural storage order, truncated to
`top_k`. -/
def specTopKRanking (dist : List ℚ → List ℚ → ℚ) (store : Store)
    (document_id : String) (top_k : ℕ) : List (String × ℚ) :=
  match findBaseRow store document_id with
  | none => []
  | some base =>
    let cands := store.lpe.filter (fun r =>
      decide (r.collection = base.collection) &&
      !decide (r.document = some document_id) && r.document.isSome)
    let docs := dedupFirst (cands.filterMap (fun r => r.document))
    let scored := docs.enum.map (fun p =>
      (p.1, p.2, bestSimilarityFor dist base.embedding cands p.2))
    ((scored.foldl (fun acc p => insertBySimDesc p acc) []).take top_k).map
      (fun p => (p.2.1, p.2.2))

/-- A store where the base document `"a"` has one orthogonal neighbour
`"b"` (cosine similarity 0) and one identical neighbour `"z"` (cosine
similarity 1), all unit vectors in one collection, with an empty
recommendation cache. -/
def storeC1 : Store :=
  { emptyStore with
      lpe :=
        [{ id := 1, collection := "c", document := some "a",
           embedding := [1, 0] },
         { id := 2, collection := "c", document := some "b",
           embedding := [0, 1] },
         { id := 3, collection := "c", document := some "z",
           embedding := [1, 0] }],
      documents := [{ id := "b", filename := "b.txt" },
                    { id := "z", filename := "z.txt" }] }

/-- C1: the claimed similarity-descending top-k is not what the code
computes. `_calculate_similarity`'s query is `DISTINCT ON (lpe.document) ...
ORDER BY lpe.document, <distance> LIMIT top_k` with no outer re-sort, so
the returned and persisted list is the first `top_k` candidate documents in
ascending document-id order, each scored by its closest row — here, for
`top_k = 1`, the similarity-0 document `"b"` instead of the similarity-1
document `"z"` that the spec's ranking (`specTopKRanking`) selects. The
code's own intent (a cosine-similarity search) matches the spec, so this is
a bug in the query, not in the spec. -/
theorem C1_recommendation_order_bug :
    RecommendSimilarUseCase.calculate_similarity cosDistUnit storeC1 "a" 1 =
      [{ document_id := "b", filename := "b.txt",
         similarity_score := 0 }] ∧
    specTopKRanking cosDistUnit storeC1 "a" 1 = [("z", 1)] ∧
    (RecommendSimilarUseCase.execute cosDistUnit storeC1 "a" 1
        none).2.ml_recommendations =
      [{ document_id := "a", recommended_document_id := "b",
         similarity_score := 0, rank := 1 }] ∧
    [("b", (0 : ℚ))] ≠ [("z", (1 : ℚ))] :=
  ⟨by with_unfolding_all rfl, by with_unfolding_all rfl,
   by with_unfolding_all rfl, by simp⟩

end ServicesML
